import Mathlib

/-!
Verification of the OceanEYE TaxaFormer backend: a shallow embedding of the
hash-based idempotent job cache implemented by `src/backend/main_cached.py`
(Supabase-backed variant), `src/backend/main_new.py` (SQL-backed variant),
`src/backend/kaggle_worker.py` (compute client) and `src/db/supabase_db.py`
(store wrapper), together with theorems about the cache-hit, cache-miss,
conflict, failure and outage behaviour of the `analyze` operation.

Conventions of the embedding:
- File bytes are `List Nat` (each entry one byte).
- JSON documents are the `Json` inductive below; numeric literals are `Rat`.
- The external compute call (`pipeline.process_file` in `main_cached.py`,
  `KaggleWorker.process_file` in `main_new.py`) is a long-latency HTTP call to
  an out-of-process worker; each request's outcome is passed in as an
  `Except String Json` value.  Timestamps and fresh job ids are likewise
  request parameters.
- Python exceptions are `Except`/`Option` values; a `try/except` that swallows
  the error is the corresponding total function.
-/

/-- JSON-like structured value: the shape of analysis result documents. -/
inductive Json where
  | jnull : Json
  | jbool (b : Bool) : Json
  | jnum (n : Rat) : Json
  | jstr (s : String) : Json
  | jarr (xs : List Json) : Json
  | jobj (fields : List (String × Json)) : Json

/-- Lookup of a field of a JSON object (Python `d.get(k)` / `d[k]` on dicts);
`none` on non-objects and missing keys. -/
def Json.getField : Json → String → Option Json
  | .jobj fs, k => (fs.find? (fun p => p.1 == k)).map (fun p => p.2)
  | _, _ => none

/-- Python `k in d` membership test on a JSON object. -/
def Json.hasField (j : Json) (k : String) : Bool :=
  (j.getField k).isSome

/-- Replace the value at key `k`, or append the binding if `k` is absent
(Python `d[k] = v` on a dict). -/
def setAssoc (fields : List (String × Json)) (k : String) (v : Json) :
    List (String × Json) :=
  if fields.any (fun p => p.1 == k) then
    fields.map (fun p => if p.1 == k then (p.1, v) else p)
  else fields ++ [(k, v)]

/-- Set a field of a JSON object.  The coordinators only ever mutate result
documents that are JSON objects, so non-objects are returned unchanged. -/
def Json.setField : Json → String → Json → Json
  | .jobj fs, k, v => .jobj (setAssoc fs k v)
  | j, _, _ => j

/-!
SHA-256 over byte lists, embedding `hashlib.sha256(file_bytes).hexdigest()`.
Words are `Nat` values kept below `2 ^ 32` by explicit `% 4294967296`.
-/

/-- Right rotation of a 32-bit word. -/
def rotr32 (n x : Nat) : Nat :=
  ((x >>> n) ||| (x <<< (32 - n))) % 4294967296

/-- Logical right shift of a 32-bit word. -/
def shr32 (n x : Nat) : Nat := x >>> n

/-- SHA-256 Sigma-0 compression function. -/
def bigSigma0 (x : Nat) : Nat := (rotr32 2 x).xor ((rotr32 13 x).xor (rotr32 22 x))

/-- SHA-256 Sigma-1 compression function. -/
def bigSigma1 (x : Nat) : Nat := (rotr32 6 x).xor ((rotr32 11 x).xor (rotr32 25 x))

/-- SHA-256 sigma-0 message schedule function. -/
def smallSigma0 (x : Nat) : Nat := (rotr32 7 x).xor ((rotr32 18 x).xor (shr32 3 x))

/-- SHA-256 sigma-1 message schedule function. -/
def smallSigma1 (x : Nat) : Nat := (rotr32 17 x).xor ((rotr32 19 x).xor (shr32 10 x))

/-- SHA-256 choose function. -/
def chFn (x y z : Nat) : Nat := (x.land y).xor ((x.xor 4294967295).land z)

/-- SHA-256 majority function. -/
def majFn (x y z : Nat) : Nat := (x.land y).xor ((x.land z).xor (y.land z))

/-- The 64 SHA-256 round constants of FIPS 180-4 (decimal rendering). -/
def sha256K : List Nat :=
  [1116352408, 1899447441, 3049323471, 3921009573, 961987163, 1508970993,
   2453635748, 2870763221, 3624381080, 310598401, 607225278, 1426881987,
   1925078388, 2162078206, 2614888103, 3248222580, 3835390401, 4022224774,
   264347078, 604807628, 770255983, 1249150122, 1555081692, 1996064986,
   2554220882, 2821834349, 2952996808, 3210313671, 3336571891, 3584528711,
   113926993, 338241895, 666307205, 773529912, 1294757372, 1396182291,
   1695183700, 1986661051, 2177026350, 2456956037, 2730485921, 2820302411,
   3259730800, 3345764771, 3516065817, 3600352804, 4094571909, 275423344,
   430227734, 506948616, 659060556, 883997877, 958139571, 1322822218,
   1537002063, 1747873779, 1955562222, 2024104815, 2227730452, 2361852424,
   2428436474, 2756734187, 3204031479, 3329325298]

/-- The SHA-256 initial hash state of FIPS 180-4 (decimal rendering). -/
def sha256H0 : List Nat :=
  [1779033703, 3144134277, 1013904242, 2773480762,
   1359893119, 2600822924, 528734635, 1541459225]

/-- Big-endian 8-byte encoding of a length. -/
def bytesBE8 (n : Nat) : List Nat :=
  [(n >>> 56) % 256, (n >>> 48) % 256, (n >>> 40) % 256, (n >>> 32) % 256,
   (n >>> 24) % 256, (n >>> 16) % 256, (n >>> 8) % 256, n % 256]

/-- SHA-256 padding: append `0x80`, zero bytes to 56 mod 64, then the bit
length as 8 big-endian bytes. -/
def padMessage (msg : List Nat) : List Nat :=
  let len := msg.length
  let zeros := (119 - len % 64) % 64
  msg ++ [128] ++ List.replicate zeros 0 ++ bytesBE8 (8 * len)

/-- Group bytes into big-endian 32-bit words. -/
def bytesToWords : List Nat → List Nat
  | b0 :: b1 :: b2 :: b3 :: rest =>
      (b0 <<< 24 + b1 <<< 16 + b2 <<< 8 + b3) :: bytesToWords rest
  | _ => []

/-- Split into 64-byte blocks (fuel-driven; the fuel is always sufficient
because every step consumes at least one byte). -/
def chunksGo : Nat → List Nat → List (List Nat)
  | 0, _ => []
  | _ + 1, [] => []
  | n + 1, l => l.take 64 :: chunksGo n (l.drop 64)

/-- Split a padded message into its 64-byte blocks. -/
def chunks64 (l : List Nat) : List (List Nat) := chunksGo l.length l

/-- Append the next word of the SHA-256 message schedule. -/
def extendOnce (ws : List Nat) : List Nat :=
  let t := ws.length
  ws ++ [(smallSigma1 (ws.getD (t - 2) 0) + ws.getD (t - 7) 0 +
          smallSigma0 (ws.getD (t - 15) 0) + ws.getD (t - 16) 0) % 4294967296]

/-- Extend the message schedule by `n` words. -/
def extendSchedule : Nat → List Nat → List Nat
  | 0, ws => ws
  | n + 1, ws => extendSchedule n (extendOnce ws)

/-- The eight SHA-256 working registers. -/
structure Regs where
  a : Nat
  b : Nat
  c : Nat
  d : Nat
  e : Nat
  f : Nat
  g : Nat
  h : Nat

/-- One SHA-256 compression round. -/
def roundStep (r : Regs) (kw : Nat × Nat) : Regs :=
  let t1 := (r.h + bigSigma1 r.e + chFn r.e r.f r.g + kw.1 + kw.2) % 4294967296
  let t2 := (bigSigma0 r.a + majFn r.a r.b r.c) % 4294967296
  ⟨(t1 + t2) % 4294967296, r.a, r.b, r.c, (r.d + t1) % 4294967296, r.e, r.f, r.g⟩

/-- Compress one 64-byte chunk into the running hash state. -/
def compressChunk (hs : List Nat) (chunk : List Nat) : List Nat :=
  let w := extendSchedule 48 (bytesToWords chunk)
  let r0 : Regs := ⟨hs.getD 0 0, hs.getD 1 0, hs.getD 2 0, hs.getD 3 0,
                    hs.getD 4 0, hs.getD 5 0, hs.getD 6 0, hs.getD 7 0⟩
  let r := (sha256K.zip w).foldl roundStep r0
  [(hs.getD 0 0 + r.a) % 4294967296, (hs.getD 1 0 + r.b) % 4294967296,
   (hs.getD 2 0 + r.c) % 4294967296, (hs.getD 3 0 + r.d) % 4294967296,
   (hs.getD 4 0 + r.e) % 4294967296, (hs.getD 5 0 + r.f) % 4294967296,
   (hs.getD 6 0 + r.g) % 4294967296, (hs.getD 7 0 + r.h) % 4294967296]

/-- SHA-256 digest of a byte list, as eight 32-bit words. -/
def sha256Words (msg : List Nat) : List Nat :=
  (chunks64 (padMessage msg)).foldl compressChunk sha256H0

/-- Lowercase hexadecimal digit. -/
def hexDigit (n : Nat) : Char :=
  "0123456789abcdef".data.getD n '0'

/-- Lowercase 8-digit hexadecimal rendering of a 32-bit word. -/
def toHex8 (w : Nat) : List Char :=
  [hexDigit ((w >>> 28) % 16), hexDigit ((w >>> 24) % 16), hexDigit ((w >>> 20) % 16),
   hexDigit ((w >>> 16) % 16), hexDigit ((w >>> 12) % 16), hexDigit ((w >>> 8) % 16),
   hexDigit ((w >>> 4) % 16), hexDigit (w % 16)]

/-- Lowercase hex digest of the SHA-256 of a byte list
(`hashlib.sha256(b).hexdigest()`). -/
def sha256hex (msg : List Nat) : String :=
  String.mk ((sha256Words msg).foldl (fun acc w => acc ++ toHex8 w) [])

/-- The Hasher: `compute_file_hash` of `main_cached.py` (lines 60-70) and
`main_new.py` (lines 50-52): the SHA-256 hex digest of the raw file bytes. -/
def compute_file_hash (file_bytes : List Nat) : String :=
  sha256hex file_bytes

/-- The UTF-8 bytes of the upload `">s1\nACGT\n"` used by the spec's
scenario in section 8. -/
def sampleUpload : List Nat := [62, 115, 49, 10, 65, 67, 71, 84, 10]

/-!
Filename extension extraction: `os.path.splitext(filename)[1]` for POSIX
paths, as used by both backend variants.
-/

/-- Index of the last occurrence of a character, if any. -/
def lastIndexOf (c : Char) : List Char → Option Nat
  | [] => none
  | x :: xs =>
      match lastIndexOf c xs with
      | some i => some (i + 1)
      | none => if x = c then some 0 else none

/-- The extension component of `os.path.splitext`: everything from the last
dot, provided that dot lies after the last path separator and the base name
has at least one non-dot character before it (so dotfiles have no
extension). -/
def splitext_ext (s : String) : String :=
  let cs := s.data
  let sepIndex : Int := match lastIndexOf '/' cs with | some i => (i : Int) | none => -1
  let dotIndex : Int := match lastIndexOf '.' cs with | some i => (i : Int) | none => -1
  if sepIndex < dotIndex then
    let d := dotIndex.toNat
    let start := (sepIndex + 1).toNat
    if ((cs.drop start).take (d - start)).any (fun ch => ch != '.') then
      String.mk (cs.drop d)
    else ""
  else ""

/-- Extension of an uploaded filename the way both endpoints compute it:
`os.path.splitext(file.filename)[1].lower()`.  Lowercasing maps
`Char.toLower` over the characters (extensionally `String.toLower`, written
out so the kernel can evaluate it; `str.lower()` agrees on the ASCII
extensions involved). -/
def fileExtOf (filename : String) : String :=
  String.mk ((splitext_ext filename).data.map Char.toLower)

/-!
Data model: the Job record of section 3 of the spec, as stored in the
`analysis_jobs` table.  The store is the list of rows in creation order.
`created_at` is assigned by the database and not modeled; `completed_at` is
written explicitly by the backend code and is modeled.
-/

/-- Job status: the strings `processing` / `complete` / `failed` written by
`main_cached.py` (`main_new.py` writes the spelling `completed`, represented
by the same constructor; the two variants use disjoint stores). -/
inductive JobStatus where
  | processing : JobStatus
  | complete : JobStatus
  | failed : JobStatus
deriving DecidableEq

/-- One row of the `analysis_jobs` table. -/
structure Job where
  job_id : String
  file_hash : String
  filename : String
  status : JobStatus
  result : Option Json
  completed_at : Option String

/-- Python truthiness of a JSON value (`if result:`), used by
`TaxaformerDB.create_job`: empty containers, empty strings, zero and null
are falsy. -/
def Json.truthy : Json → Bool
  | .jnull => false
  | .jbool b => b
  | .jnum n => n != 0
  | .jstr s => s != ""
  | .jarr xs => !xs.isEmpty
  | .jobj fs => !fs.isEmpty

/-- Truthiness of an optional JSON value (Python `None` is falsy). -/
def optTruthy : Option Json → Bool
  | none => false
  | some j => j.truthy

/-- Cache lookup `TaxaformerDB.get_job_by_hash` (its happy path: the
`select ... eq(file_hash) ... limit(1)` query): the first row whose
`file_hash` matches, if any.  The exception-swallowing wrapper around this
query is modeled separately as `get_job_by_hash_wrap`. -/
def get_job_by_hash (jobs : List Job) (file_hash : String) : Option Job :=
  jobs.find? (fun j => j.file_hash == file_hash)

/-- Creation failure signals of `TaxaformerDB.create_job`. -/
inductive CreateErr where
  | conflict : CreateErr

/-- Modelled from the spec: the `analysis_jobs` unique constraint on
`file_hash` declared in `db/migration__add_analysis_jobs.sql`, a repository
file not present under `src/`; per section 4.2 of the spec, `create` "fails
with `ConflictError` if a job for that fingerprint already exists (unique
constraint)".  The rest of the definition embeds `TaxaformerDB.create_job`
(`src/db/supabase_db.py` lines 66-102): insert a row with the given status;
the `result` and `completed_at` fields are included only when the passed
result is truthy (`if result:`); the new row's `job_id` is returned.
`create_job` re-raises its own storage errors to the caller. -/
def create_job (jobs : List Job) (file_hash filename : String) (status : JobStatus)
    (result : Option Json) (now newId : String) : Except CreateErr (List Job × String) :=
  if jobs.any (fun j => j.file_hash == file_hash) then
    .error .conflict
  else
    let stored : Option Json := if optTruthy result then result else none
    let stamped : Option String := if optTruthy result then some now else none
    .ok (jobs ++ [⟨newId, file_hash, filename, status, stored, stamped⟩], newId)

/-- Update every row with the given `job_id` through `f`
(`update(...).eq('job_id', job_id)` in `main_cached.py`). -/
def updateJobs (jobs : List Job) (job_id : String) (f : Job → Job) : List Job :=
  jobs.map (fun j => if j.job_id == job_id then f j else j)

/-- The success bookkeeping of `main_cached.py` lines 197-205: set
`status=complete`, store the result, stamp `completed_at`. -/
def completeUpdate (jobs : List Job) (job_id : String) (result : Json) (now : String) :
    List Job :=
  updateJobs jobs job_id
    (fun j => { j with status := .complete, result := some result, completed_at := some now })

/-- The failure bookkeeping of `main_cached.py` lines 233-241: set
`status=failed`, stamp `completed_at`. -/
def failUpdate (jobs : List Job) (job_id : String) (now : String) : List Job :=
  updateJobs jobs job_id (fun j => { j with status := .failed, completed_at := some now })

/-- The save path of `main_new.py` (`save_result_to_db`, lines 83-108): an
`INSERT ... ON CONFLICT (file_hash) DO UPDATE` upsert that inserts a
completed row, or, when a row with that `file_hash` already exists,
overwrites that row's `result_json` and `status` while keeping its
`job_id`.  Its own storage errors are swallowed by the caller's model
(`saveOk` flag of `NewEnv`). -/
def save_result_to_db (jobs : List Job) (job_id file_hash filename : String)
    (result : Json) : List Job :=
  if jobs.any (fun j => j.file_hash == file_hash) then
    jobs.map (fun j =>
      if j.file_hash == file_hash then
        { j with status := .complete, result := some result }
      else j)
  else jobs ++ [⟨job_id, file_hash, filename, .complete, some result, none⟩]

/-- The cache check of `main_new.py` (`check_existing_result`, lines 55-80,
happy path of the SQL query): the first row with this `file_hash` and
completed status, projected to `(job_id, result_json)`; any database
exception is swallowed into `None`, so an unreachable database (`dbUp =
false`) behaves as a miss. -/
def check_existing_result (dbUp : Bool) (jobs : List Job) (file_hash : String) :
    Option (String × Option Json) :=
  if dbUp then
    (jobs.find? (fun j => j.file_hash == file_hash && j.status == JobStatus.complete)).map
      (fun j => (j.job_id, j.result))
  else none

/-!
Exception-catching store wrappers, modeled over the raw outcome of the
underlying client call (`Except` error = the Python exception).
-/

/-- Summary row returned by `TaxaformerDB.get_all_jobs` (no `result`
payload). -/
structure JobSummary where
  job_id : String
  filename : String
  status : JobStatus
  completed_at : Option String

/-- `TaxaformerDB.get_job_by_hash` (lines 45-64) as a function of the raw
client outcome: first returned row if the response has data, `None`
otherwise; any exception is caught and returns `None`. -/
def get_job_by_hash_wrap (raw : Except String (List Job)) : Option Job :=
  match raw with
  | .error _ => none
  | .ok data => data.head?

/-- `TaxaformerDB.get_all_jobs` (lines 201-222) as a function of the raw
client outcome: `response.data or []` on success; any exception is caught
and returns the empty list. -/
def get_all_jobs_wrap (raw : Except String (Option (List JobSummary))) :
    List JobSummary :=
  match raw with
  | .error _ => []
  | .ok data => data.getD []

/-- The `cached` hit document built by `check_existing_result` of
`main_new.py`. -/
structure CachedHit where
  job_id : String
  result : Json
  cached : Bool
  cached_at : String

/-- `check_existing_result` (lines 55-80) as a function of the raw cursor
outcome: the fetched row decorated with `cached: true`, `None` when the
query returns no row, and `None` on any exception. -/
def check_existing_result_wrap (raw : Except String (Option (String × Json × String))) :
    Option CachedHit :=
  match raw with
  | .error _ => none
  | .ok none => none
  | .ok (some (jid, res, ts)) => some ⟨jid, res, true, ts⟩

/-!
ComputeClient: `KaggleWorker` of `src/backend/kaggle_worker.py`.  The HTTP
exchange of the configured branch is abstracted by an `HttpOutcome`
parameter (timeout exception, connection exception, or a response with a
status code and parsed JSON body; responses whose bodies are not valid JSON
are outside the model).
-/

/-- Configuration state of the Kaggle worker: the ngrok URL (empty string
when unset, as in the Python default) and the request timeout. -/
structure KaggleWorker where
  ngrok_url : String
  timeout : Nat

/-- `KaggleWorker.is_configured`: whether the ngrok URL is a non-empty
string. -/
def KaggleWorker.is_configured (w : KaggleWorker) : Bool :=
  w.ngrok_url != ""

/-- Outcome of the `requests.post` call to the Kaggle server. -/
inductive HttpOutcome where
  | timeout : HttpOutcome
  | connectionError : HttpOutcome
  | response (code : Nat) (body : Json) : HttpOutcome

/-- `KaggleWorker._generate_mock_result` (lines 93-160): the built-in
fixture document, with `metadata.sampleName` set to the uploaded
filename. -/
def KaggleWorker.generate_mock_result (filename : String) : Json :=
  .jobj
    [("metadata", .jobj
        [("sampleName", .jstr filename),
         ("totalSequences", .jnum 150),
         ("processingTime", .jstr "2.8s"),
         ("avgConfidence", .jnum 89)]),
     ("taxonomy_summary", .jarr
        [.jobj [("name", .jstr "Alveolata"), ("value", .jnum 45), ("color", .jstr "#22D3EE")],
         .jobj [("name", .jstr "Chlorophyta"), ("value", .jnum 32), ("color", .jstr "#10B981")],
         .jobj [("name", .jstr "Fungi"), ("value", .jnum 15), ("color", .jstr "#A78BFA")],
         .jobj [("name", .jstr "Metazoa"), ("value", .jnum 28), ("color", .jstr "#F59E0B")],
         .jobj [("name", .jstr "Rhodophyta"), ("value", .jnum 18), ("color", .jstr "#EC4899")],
         .jobj [("name", .jstr "Unknown"), ("value", .jnum 12), ("color", .jstr "#64748B")]]),
     ("sequences", .jarr
        [.jobj [("accession", .jstr "SEQ_001"),
                ("taxonomy", .jstr "Alveolata; Dinoflagellata; Gymnodiniales"),
                ("length", .jnum 1842), ("confidence", .jnum (0.94 : Rat)),
                ("overlap", .jnum 87), ("cluster", .jstr "C1")],
         .jobj [("accession", .jstr "SEQ_002"),
                ("taxonomy", .jstr "Chlorophyta; Chlorophyceae; Chlamydomonadales"),
                ("length", .jnum 1654), ("confidence", .jnum (0.89 : Rat)),
                ("overlap", .jnum 92), ("cluster", .jstr "C2")],
         .jobj [("accession", .jstr "SEQ_003"),
                ("taxonomy", .jstr "Metazoa; Arthropoda; Copepoda"),
                ("length", .jnum 2103), ("confidence", .jnum (0.96 : Rat)),
                ("overlap", .jnum 94), ("cluster", .jstr "C3")],
         .jobj [("accession", .jstr "SEQ_004"),
                ("taxonomy", .jstr "Unknown; Novel Cluster A"),
                ("length", .jnum 1723), ("confidence", .jnum (0.42 : Rat)),
                ("overlap", .jnum 34), ("cluster", .jstr "N1")],
         .jobj [("accession", .jstr "SEQ_005"),
                ("taxonomy", .jstr "Rhodophyta; Florideophyceae; Ceramiales"),
                ("length", .jnum 1889), ("confidence", .jnum (0.91 : Rat)),
                ("overlap", .jnum 88), ("cluster", .jstr "C4")]]),
     ("cluster_data", .jarr
        [.jobj [("x", .jnum (12.5 : Rat)), ("y", .jnum (8.3 : Rat)), ("z", .jnum 45),
                ("cluster", .jstr "Alveolata"), ("color", .jstr "#22D3EE")],
         .jobj [("x", .jnum (-8.2 : Rat)), ("y", .jnum (15.1 : Rat)), ("z", .jnum 32),
                ("cluster", .jstr "Chlorophyta"), ("color", .jstr "#10B981")],
         .jobj [("x", .jnum (3.4 : Rat)), ("y", .jnum (-12.7 : Rat)), ("z", .jnum 28),
                ("cluster", .jstr "Metazoa"), ("color", .jstr "#F59E0B")],
         .jobj [("x", .jnum (-15.8 : Rat)), ("y", .jnum (-5.2 : Rat)), ("z", .jnum 18),
                ("cluster", .jstr "Rhodophyta"), ("color", .jstr "#EC4899")],
         .jobj [("x", .jnum (18.3 : Rat)), ("y", .jnum (2.1 : Rat)), ("z", .jnum 15),
                ("cluster", .jstr "Fungi"), ("color", .jstr "#A78BFA")],
         .jobj [("x", .jnum (-2.1 : Rat)), ("y", .jnum (-18.5 : Rat)), ("z", .jnum 12),
                ("cluster", .jstr "Unknown"), ("color", .jstr "#64748B")]])]

/-- The optional ` - detail` suffix of the non-2xx error message
(`response.json().get('detail', '')`, appended only when truthy). -/
def kaggleErrorDetail (body : Json) : String :=
  match body.getField "detail" with
  | some (.jstr d) => if d != "" then " - " ++ d else ""
  | _ => ""

/-- The server-reported message of a success-status response with a
non-success envelope (`result.get('message', 'Unknown error')`). -/
def kaggleErrorMessage (body : Json) : String :=
  match body.getField "message" with
  | some (.jstr m) => m
  | _ => "Unknown error"

/-- `KaggleWorker.process_file` (lines 28-91).  When no ngrok URL is
configured, returns the mock fixture without touching the file.  When
configured: a timeout or connection failure raises the corresponding
message; a non-200 response raises `Kaggle server error: <code>` with
optional detail; a 200 response with a `status: success` envelope returns
its `data` field (or the whole body if `data` is absent); any other 200
envelope raises `Kaggle server returned error: <message>`.  `file_bytes`
is the staged temporary file's content, read only by the configured HTTP
branch. -/
def KaggleWorker.process_file (w : KaggleWorker) (http : HttpOutcome)
    (file_bytes : List Nat) (original_filename : String) : Except String Json :=
  if w.is_configured = false then
    .ok (KaggleWorker.generate_mock_result original_filename)
  else
    match http with
    | .timeout => .error "Analysis timeout - file may be too large or server is busy"
    | .connectionError => .error "Cannot connect to Kaggle server - check ngrok URL and server status"
    | .response code body =>
        if code != 200 then
          .error ("Kaggle server error: " ++ toString code ++ kaggleErrorDetail body)
        else
          match body.getField "status" with
          | some (.jstr "success") => .ok ((body.getField "data").getD body)
          | _ => .error ("Kaggle server returned error: " ++ kaggleErrorMessage body)

/-!
The HTTP responses of the analyze endpoints.  FastAPI returns a dict body
with HTTP status 200; `raise HTTPException(code, detail)` produces the
given error status.
-/

/-- Response of the analyze endpoints, as seen by the HTTP caller. -/
inductive Response where
  | success (cached : Bool) (job_id : Option String) (data : Option Json) : Response
  | processing (job_id : String) (message : String) : Response
  | httpError (code : Nat) (detail : String) : Response
  | errorEnvelope (message : String) : Response

/-- HTTP status code of a response: plain dict returns are HTTP 200
(including the `status:"error"` envelope of `main_cached.py`); only
`HTTPException` carries another status. -/
def Response.httpStatus : Response → Nat
  | .httpError code _ => code
  | _ => 200

/-- Result of one request: the response, the store rows afterwards, and
whether the external compute call was made during the request. -/
structure AnalyzeOutcome where
  response : Response
  jobs : List Job
  computeInvoked : Bool

/-- The allow-list of `main_cached.py` line 118. -/
def allowed_extensions_cached : List String :=
  [".fasta", ".fa", ".fastq", ".fq", ".txt"]

/-- The allow-list of `main_new.py` line 141. -/
def allowed_extensions_new : List String :=
  [".fasta", ".fa", ".fna", ".fastq", ".fq"]

/-- Detail string of the unsupported-file-type rejection. -/
def unsupportedDetail (allowed : List String) : String :=
  "Unsupported file type. Allowed: " ++ String.intercalate ", " allowed

/-- Message of the processing indicator of `main_cached.py` line 149. -/
def processingMessage : String :=
  "Analysis in progress. Please check back later."

/-- Python truthiness guard and metadata mutation of `main_cached.py` lines
183-191: stamp `processingTime` into the result's `metadata` object (and
the parsed user metadata when truthy), or create a `metadata` object when
absent and user metadata was supplied.  Pipeline results are JSON objects
with object-valued `metadata`, the only case these lines execute without
raising. -/
def addTimeMeta (d : Json) (pt : String) (pm : Option Json) : Json :=
  if d.hasField "metadata" then
    let md0 := (d.getField "metadata").getD .jnull
    let md1 := md0.setField "processingTime" (.jstr pt)
    let md2 := if optTruthy pm then md1.setField "userMetadata" (pm.getD .jnull) else md1
    d.setField "metadata" md2
  else if optTruthy pm then
    d.setField "metadata" (.jobj [("processingTime", .jstr pt), ("userMetadata", pm.getD .jnull)])
  else d

/-- Per-request environment of `analyze_endpoint` in `main_cached.py`:
`dbEnabled` is `USE_DATABASE and db` (false when the store was unreachable
at startup); `interfere` is the effect of concurrent requests' store writes,
applied between this request's cache lookup and its job creation;
`computeResult` is the outcome of the `pipeline.process_file` call;
`newJobId`, `nowIso` and `procTime` are the fresh id and timestamp strings;
`parsedMetadata` is the parsed optional metadata form field;
`completeSaveOk` / `failSaveOk` tell whether the success / failure
bookkeeping writes reach the store (their exceptions are swallowed). -/
structure CachedEnv where
  dbEnabled : Bool
  interfere : List Job → List Job
  computeResult : Except String Json
  newJobId : String
  nowIso : String
  procTime : String
  parsedMetadata : Option Json
  completeSaveOk : Bool
  failSaveOk : Bool

/-- The cache-miss continuation of `analyze_endpoint` (`main_cached.py`
lines 154-256): create a processing job (any creation error is printed and
swallowed, continuing without a job id), invoke the pipeline, then either
store the result and return it (storage errors swallowed) or mark the job
failed (storage errors swallowed) and let the outer handler return the
`status:"error"` envelope. -/
def analyze_cached_miss (jobs0 : List Job) (env : CachedEnv)
    (filename file_hash : String) : AnalyzeOutcome :=
  let jobs1 := env.interfere jobs0
  let created : Option String × List Job :=
    if env.dbEnabled then
      match create_job jobs1 file_hash filename .processing none env.nowIso env.newJobId with
      | .ok (js, jid) => (some jid, js)
      | .error _ => (none, jobs1)
    else (none, jobs1)
  match env.computeResult with
  | .ok data =>
      let data1 := addTimeMeta data env.procTime env.parsedMetadata
      let jobs3 :=
        match created.1 with
        | some jid =>
            if env.dbEnabled && env.completeSaveOk then
              completeUpdate created.2 jid data1 env.nowIso
            else created.2
        | none => created.2
      ⟨.success false created.1 (some data1), jobs3, true⟩
  | .error msg =>
      let jobs3 :=
        match created.1 with
        | some jid =>
            if env.dbEnabled && env.failSaveOk then
              failUpdate created.2 jid env.nowIso
            else created.2
        | none => created.2
      ⟨.errorEnvelope ("Analysis failed: " ++ msg), jobs3, true⟩

/-- `analyze_endpoint` of `main_cached.py` (lines 86-264): validate the
filename and its extension, hash the bytes, consult the cache when the
database is enabled (complete hit returns the stored result as cached;
processing hit returns the processing indicator; failed hit falls through
to a retry), otherwise run the cache-miss path. -/
def analyze_cached (jobs0 : List Job) (env : CachedEnv)
    (filename : String) (file_bytes : List Nat) : AnalyzeOutcome :=
  if filename == "" then
    ⟨.httpError 400 "No filename provided", jobs0, false⟩
  else if (allowed_extensions_cached.contains (fileExtOf filename)) = false then
    ⟨.httpError 400 (unsupportedDetail allowed_extensions_cached), jobs0, false⟩
  else
    let file_hash := compute_file_hash file_bytes
    match (if env.dbEnabled then get_job_by_hash jobs0 file_hash else none) with
    | some j =>
        match j.status with
        | .complete => ⟨.success true (some j.job_id) j.result, jobs0, false⟩
        | .processing => ⟨.processing j.job_id processingMessage, jobs0, false⟩
        | .failed => analyze_cached_miss jobs0 env filename file_hash
    | none => analyze_cached_miss jobs0 env filename file_hash

/-- Per-request environment of `analyse_endpoint` in `main_new.py`: `dbUp`
is whether the database connection works (every exception of
`check_existing_result` is swallowed into a miss); `computeResult` is the
outcome of `kaggle_worker.process_file`; `newJobId` is the fresh
`uuid.uuid4()`; `saveOk` is whether the `save_result_to_db` write reaches
the store (its exceptions are swallowed). -/
structure NewEnv where
  dbUp : Bool
  computeResult : Except String Json
  newJobId : String
  saveOk : Bool

/-- `analyse_endpoint` of `main_new.py` (lines 121-207): validate the
filename and its extension, hash the bytes, return a completed row for this
hash as a cached result, otherwise generate a fresh job id, invoke the
Kaggle worker, save the result through the upsert (errors swallowed) and
return it; a compute failure raises `HTTPException(500, str(e))` and
persists nothing. -/
def analyse_new (jobs0 : List Job) (env : NewEnv)
    (filename : String) (file_bytes : List Nat) : AnalyzeOutcome :=
  if filename == "" then
    ⟨.httpError 400 "No filename provided", jobs0, false⟩
  else if (allowed_extensions_new.contains (fileExtOf filename)) = false then
    ⟨.httpError 400 (unsupportedDetail allowed_extensions_new), jobs0, false⟩
  else
    let file_hash := compute_file_hash file_bytes
    match check_existing_result env.dbUp jobs0 file_hash with
    | some (jid, res) => ⟨.success true (some jid) res, jobs0, false⟩
    | none =>
        match env.computeResult with
        | .ok data =>
            let jobs1 :=
              if env.saveOk then
                save_result_to_db jobs0 env.newJobId file_hash filename data
              else jobs0
            ⟨.success false (some env.newJobId) (some data), jobs1, true⟩
        | .error msg => ⟨.httpError 500 msg, jobs0, true⟩

/-- Response of the `/jobs` listing endpoint. -/
inductive JobsResponse where
  | ok (jobs : List JobSummary) : JobsResponse
  | httpError (code : Nat) (detail : String) : JobsResponse

/-- Projection to the summary columns selected by
`TaxaformerDB.get_all_jobs`. -/
def toSummary (j : Job) : JobSummary :=
  ⟨j.job_id, j.filename, j.status, j.completed_at⟩

/-- `TaxaformerDB.get_all_jobs` happy path: most recently created first,
truncated to `limit`, without the `result` payload. -/
def get_all_jobs (jobs : List Job) (limit : Nat) : List JobSummary :=
  (jobs.reverse.take limit).map toSummary

/-- `list_jobs` of `main_cached.py` (lines 284-293): a 503 when the
database is disabled or was unreachable at startup, the summary listing
otherwise (`get_all_jobs` swallows its own storage errors, so the 500
re-wrap is unreachable). -/
def list_jobs (dbEnabled : Bool) (jobs : List Job) (limit : Nat) : JobsResponse :=
  if dbEnabled = false then .httpError 503 "Database not available"
  else .ok (get_all_jobs jobs limit)

/-!
The store operations as a transition system, for the Job-record invariants:
`create_job`, the complete / fail bookkeeping updates, and the SQL
variant's save upsert.
-/

/-- One store operation: job creation, the success / failure bookkeeping
updates of `main_cached.py`, or the save upsert of `main_new.py`. -/
inductive StoreOp where
  | create (file_hash filename : String) (status : JobStatus) (result : Option Json)
      (now newId : String) : StoreOp
  | complete (job_id : String) (result : Json) (now : String) : StoreOp
  | fail (job_id : String) (now : String) : StoreOp
  | save (job_id file_hash filename : String) (result : Json) : StoreOp

/-- Effect of one store operation on the rows (a conflicting create fails
and leaves the store unchanged). -/
def applyOp (jobs : List Job) : StoreOp → List Job
  | .create h f st r now id =>
      match create_job jobs h f st r now id with
      | .ok (js, _) => js
      | .error _ => jobs
  | .complete id r now => completeUpdate jobs id r now
  | .fail id now => failUpdate jobs id now
  | .save id h f r => save_result_to_db jobs id h f r

/-- How the code invokes each operation: `analyze_endpoint` creates jobs
with `status="processing"` and no result, and `store_analysis` creates
them with the full (truthy) result document; the complete / fail updates
target the job id the same request just created as `processing` (fresh ids,
so no row with that id is in any other state).  The save upsert is
unconstrained. -/
def opGuard (jobs : List Job) : StoreOp → Prop
  | .create _ _ st r _ _ => optTruthy r = true ∨ (st = .processing ∧ r = none)
  | .complete id _ _ => ∀ j ∈ jobs, j.job_id = id → j.status = .processing
  | .fail id _ => ∀ j ∈ jobs, j.job_id = id → j.status = .processing
  | .save _ _ _ _ => True

/-- Store states reachable from the empty table by guarded operations. -/
inductive ReachableStore : List Job → Prop where
  | empty : ReachableStore []
  | step (jobs : List Job) (op : StoreOp) (hr : ReachableStore jobs)
      (hg : opGuard jobs op) : ReachableStore (applyOp jobs op)

/-- Whether an operation is the SQL variant's save upsert. -/
def isSaveOp : StoreOp → Bool
  | .save _ _ _ _ => true
  | _ => false

/-- The Job-record invariant of section 3: completed rows carry a result. -/
def CompleteHasResult (jobs : List Job) : Prop :=
  ∀ j ∈ jobs, j.status = .complete → j.result.isSome = true

/-!
Concrete fixtures used by the witnesses and counterexamples below.
-/

/-- Path to the `metadata.sampleName` field of a result document. -/
def sampleNameOf (j : Json) : Option Json :=
  (j.getField "metadata").bind (fun m => m.getField "sampleName")

/-- String projection of the sample name of a compute outcome. -/
def mockSampleName (e : Except String Json) : String :=
  match e with
  | .ok j =>
      match sampleNameOf j with
      | some (.jstr s) => s
      | _ => ""
  | .error _ => ""

/-- A worker with no ngrok URL configured (the `KAGGLE_TIMEOUT` default of
300 seconds). -/
def unconfiguredWorker : KaggleWorker := ⟨"", 300⟩

/-- A small result document without a `metadata` field. -/
def testDoc : Json := .jobj [("k", .jstr "v")]

/-- Sequential request environment for the Supabase-backed endpoint:
database enabled, no concurrent writes, compute succeeds with `testDoc`. -/
def envC1 : CachedEnv := ⟨true, id, .ok testDoc, "jobN", "t1", "0.0s", none, true, true⟩

/-- Sequential request environment for the SQL-backed endpoint. -/
def envN1 : NewEnv := ⟨true, .ok testDoc, "jobN", true⟩

/-- A completed row for the sample upload. -/
def completeJob : Job :=
  ⟨"jobC", compute_file_hash sampleUpload, "x.fasta", .complete, some testDoc, some "t0"⟩

/-- A processing row for the sample upload. -/
def procJob : Job :=
  ⟨"jobP", compute_file_hash sampleUpload, "x.fasta", .processing, none, none⟩

/-- Request environment for the processing-hit scenario. -/
def envC3 : CachedEnv := ⟨true, id, .ok testDoc, "jobN", "t1", "0.0s", none, true, true⟩

/-- The row a concurrent request inserts for the same fingerprint. -/
def jobA : Job :=
  ⟨"jobA", compute_file_hash sampleUpload, "x.fasta", .processing, none, none⟩

/-- Request environment in which a concurrent request inserts `jobA`
between this request's cache lookup and its job creation. -/
def envC2 : CachedEnv :=
  ⟨true, fun js => js ++ [jobA], .ok testDoc, "jobB", "t1", "0.0s", none, true, true⟩

/-- Request environment for the extension-validation scenarios. -/
def envC5 : CachedEnv := ⟨true, id, .ok testDoc, "j1", "t1", "0.0s", none, true, true⟩

/-- SQL-variant environment for the extension-validation scenarios. -/
def envN5 : NewEnv := ⟨true, .ok testDoc, "j1", true⟩

/-- Request environment whose compute call fails with `boom`. -/
def envC6 : CachedEnv := ⟨true, id, .error "boom", "jobF", "t9", "0.0s", none, true, true⟩

/-- SQL-variant environment whose compute call fails with `boom`. -/
def envN6 : NewEnv := ⟨true, .error "boom", "jobB", true⟩

/-- Request environment of a process started with the store unreachable
(`USE_DATABASE` forced off). -/
def envC9 : CachedEnv := ⟨false, id, .ok testDoc, "j9", "t9", "0.0s", none, true, true⟩

/-- Store after the SQL variant saved result `r1` for hash `h1`. -/
def savedJob1 : List Job := applyOp [] (.save "j1" "h1" "x.fasta" (.jstr "r1"))

/-- A second save for the same hash with a different result. -/
def saveOp2 : StoreOp := .save "j2" "h1" "x.fasta" (.jstr "r2")

/-!
Theorems.
-/

/-- C7: the Hasher is a pure function from file bytes to the SHA-256 hex
digest of those exact bytes: equal byte lists have equal fingerprints, the
fingerprint of `">s1\nACGT\n"` is the SHA-256 hex digest of those exact
nine bytes, and `compute_file_hash` is definitionally the SHA-256 hex
digest function. -/
theorem spec_hasher_sha256 :
    (∀ b1 b2 : List Nat, b1 = b2 → compute_file_hash b1 = compute_file_hash b2) ∧
    compute_file_hash sampleUpload =
      "b9cb68af426afd9ab8eee41772a1db3e0ee8ffd4821173000e1a3b71a685884d" ∧
    compute_file_hash = sha256hex := by
  refine ⟨fun b1 b2 h => by rw [h], by decide, rfl⟩

/-- Witness: determinism of the fingerprint at the spec's sample upload. -/
theorem spec_hasher_sha256_witness :
    compute_file_hash sampleUpload = compute_file_hash sampleUpload :=
  spec_hasher_sha256.1 sampleUpload sampleUpload rfl

/-- C10: the store wrapper's read operations are total functions of the raw
client outcome and never propagate an exception: `get_job_by_hash` returns
`None` on any storage exception (exactly as on an empty query result),
`get_all_jobs` returns the empty list on any storage exception (exactly as
on an empty table), and the SQL variant's `check_existing_result` returns
`None` on any database exception (exactly as on a cache miss). -/
theorem spec_store_reads_total (msg : String) :
    get_job_by_hash_wrap (.error msg) = none ∧
    get_job_by_hash_wrap (.error msg) = get_job_by_hash_wrap (.ok []) ∧
    get_all_jobs_wrap (.error msg) = [] ∧
    get_all_jobs_wrap (.error msg) = get_all_jobs_wrap (.ok none) ∧
    get_all_jobs_wrap (.error msg) = get_all_jobs_wrap (.ok (some [])) ∧
    check_existing_result_wrap (.error msg) = none ∧
    check_existing_result_wrap (.error msg) = check_existing_result_wrap (.ok none) := by
  exact ⟨rfl, rfl, rfl, rfl, rfl, rfl, rfl⟩

/-- C8 (amended): with no remote endpoint configured, `process_file`
returns the built-in fixture document without raising, independently of
the file bytes and of the HTTP layer; however the document is a function
of the uploaded filename (its `metadata.sampleName` field), so only calls
sharing a filename receive the identical document. -/
theorem spec_mock_fixture_amended (w : KaggleWorker) (h1 h2 : HttpOutcome)
    (b1 b2 : List Nat) (f : String) (hw : w.is_configured = false) :
    KaggleWorker.process_file w h1 b1 f = .ok (KaggleWorker.generate_mock_result f) ∧
    KaggleWorker.process_file w h1 b1 f = KaggleWorker.process_file w h2 b2 f := by
  unfold KaggleWorker.process_file
  rw [hw]
  exact ⟨rfl, rfl⟩

/-- Witness: the unconfigured worker returns the fixture for a concrete
call, independently of bytes and HTTP outcome. -/
theorem spec_mock_fixture_amended_witness :
    KaggleWorker.process_file unconfiguredWorker .timeout [] "x.fasta" =
      .ok (KaggleWorker.generate_mock_result "x.fasta") ∧
    KaggleWorker.process_file unconfiguredWorker .timeout [] "x.fasta" =
      KaggleWorker.process_file unconfiguredWorker .connectionError [0] "x.fasta" :=
  spec_mock_fixture_amended unconfiguredWorker .timeout .connectionError [] [0] "x.fasta" rfl

/-- C8 counterexample: the claim says the unconfigured worker returns the
same document regardless of the filename passed in, but two calls with
different filenames return different documents (they differ at
`metadata.sampleName`). -/
theorem spec_mock_filename_counterexample :
    KaggleWorker.process_file unconfiguredWorker .timeout [] "a.fasta" ≠
      KaggleWorker.process_file unconfiguredWorker .timeout [] "b.fasta" := by
  intro h
  have h2 : ("a.fasta" : String) = "b.fasta" := congrArg mockSampleName h
  exact absurd h2 (by decide)

/-- C9: when the store is unavailable at startup (`USE_DATABASE` off),
submission still succeeds uncached — the compute result is returned with
no `job_id` and nothing persisted by this request — while the
cache-lookup-dependent `/jobs` endpoint answers 503 instead of a
listing. -/
theorem spec_storage_outage (jobs : List Job) (env : CachedEnv)
    (filename : String) (file_bytes : List Nat) (d : Json) (limit : Nat)
    (hdb : env.dbEnabled = false)
    (hcomp : env.computeResult = .ok d)
    (hn : (filename == "") = false)
    (hext : fileExtOf filename ∈ allowed_extensions_cached) :
    analyze_cached jobs env filename file_bytes =
      ⟨.success false none (some (addTimeMeta d env.procTime env.parsedMetadata)),
       env.interfere jobs, true⟩ ∧
    list_jobs env.dbEnabled jobs limit = .httpError 503 "Database not available" := by
  constructor
  · unfold analyze_cached analyze_cached_miss
    simp [hn, hext, hdb, hcomp]
  · unfold list_jobs
    simp [hdb]

/-- Witness: the outage scenario at a concrete upload. -/
theorem spec_storage_outage_witness :
    analyze_cached [] envC9 "x.fasta" sampleUpload =
      ⟨.success false none (some (addTimeMeta testDoc envC9.procTime envC9.parsedMetadata)),
       envC9.interfere [], true⟩ ∧
    list_jobs envC9.dbEnabled [] 5 = .httpError 503 "Database not available" :=
  spec_storage_outage [] envC9 "x.fasta" sampleUpload testDoc 5 rfl rfl rfl (by decide)

/-- C3: a submission whose fingerprint maps to a `processing` job gets the
processing indicator with that job's id, with the store left unchanged (no
new Job row) and the compute client not invoked. -/
theorem spec_processing_hit (jobs : List Job) (env : CachedEnv) (filename : String)
    (file_bytes : List Nat) (j : Job)
    (hn : (filename == "") = false)
    (hext : fileExtOf filename ∈ allowed_extensions_cached)
    (hdb : env.dbEnabled = true)
    (hfind : get_job_by_hash jobs (compute_file_hash file_bytes) = some j)
    (hst : j.status = .processing) :
    analyze_cached jobs env filename file_bytes =
      ⟨.processing j.job_id processingMessage, jobs, false⟩ := by
  unfold analyze_cached
  simp [hn, hext, hdb, hfind, hst]

/-- Witness: the processing indicator at a concrete store and upload. -/
theorem spec_processing_hit_witness :
    analyze_cached [procJob] envC3 "x.fasta" sampleUpload =
      ⟨.processing "jobP" processingMessage, [procJob], false⟩ :=
  spec_processing_hit [procJob] envC3 "x.fasta" sampleUpload procJob rfl (by decide)
    rfl rfl rfl

/-- A validated submission to the Supabase-backed endpoint never answers
with an `HTTPException`: every branch after validation returns a plain
dict. -/
theorem analyze_cached_no_httpError (jobs : List Job) (env : CachedEnv)
    (filename : String) (b : List Nat) (c : Nat) (det : String)
    (hn : (filename == "") = false)
    (hext : fileExtOf filename ∈ allowed_extensions_cached) :
    (analyze_cached jobs env filename b).response ≠ .httpError c det := by
  unfold analyze_cached analyze_cached_miss
  simp [hn, hext]
  repeat' split
  all_goals simp

/-- A validated submission to the SQL-backed endpoint never answers with
the unsupported-type rejection (its only `HTTPException` after validation
is the 500 of a failed compute call). -/
theorem analyse_new_not_unsupported (jobs : List Job) (env : NewEnv)
    (filename : String) (b : List Nat) (det : String)
    (hn : (filename == "") = false)
    (hext : fileExtOf filename ∈ allowed_extensions_new) :
    (analyse_new jobs env filename b).response ≠ .httpError 400 det := by
  unfold analyse_new
  simp [hn, hext]
  repeat' split
  all_goals simp

/-- C5 (amended): each variant validates the uploaded filename's extension
case-insensitively against its own allow-list — `main_cached.py` accepts
exactly `.fasta .fa .fastq .fq .txt` (no `.fna`), `main_new.py` accepts
exactly `.fasta .fa .fna .fastq .fq` (no `.txt`) — and a rejected upload
fails with the unsupported-type 400 before any hash computation or store
interaction: the outcome is independent of the file bytes, the store is
unchanged, and the compute client is not invoked. -/
theorem spec_extension_allowlist_amended (filename : String) (b1 b2 : List Nat)
    (jobs : List Job) (envC : CachedEnv) (envN : NewEnv)
    (hn : (filename == "") = false) :
    ((analyze_cached jobs envC filename b1).response =
        .httpError 400 (unsupportedDetail allowed_extensions_cached) ↔
      fileExtOf filename ∉ allowed_extensions_cached) ∧
    ((analyse_new jobs envN filename b1).response =
        .httpError 400 (unsupportedDetail allowed_extensions_new) ↔
      fileExtOf filename ∉ allowed_extensions_new) ∧
    (fileExtOf filename ∉ allowed_extensions_cached →
      analyze_cached jobs envC filename b1 =
        ⟨.httpError 400 (unsupportedDetail allowed_extensions_cached), jobs, false⟩ ∧
      analyze_cached jobs envC filename b1 = analyze_cached jobs envC filename b2) ∧
    (fileExtOf filename ∉ allowed_extensions_new →
      analyse_new jobs envN filename b1 =
        ⟨.httpError 400 (unsupportedDetail allowed_extensions_new), jobs, false⟩ ∧
      analyse_new jobs envN filename b1 = analyse_new jobs envN filename b2) := by
  refine ⟨⟨fun he => ?_, fun hno => ?_⟩, ⟨fun he => ?_, fun hno => ?_⟩,
    fun hno => ⟨?_, ?_⟩, fun hno => ⟨?_, ?_⟩⟩
  · by_cases hmem : fileExtOf filename ∈ allowed_extensions_cached
    · exact absurd he (analyze_cached_no_httpError jobs envC filename b1 400 _ hn hmem)
    · exact hmem
  · unfold analyze_cached
    simp [hn, hno]
  · by_cases hmem : fileExtOf filename ∈ allowed_extensions_new
    · exact absurd he (analyse_new_not_unsupported jobs envN filename b1 _ hn hmem)
    · exact hmem
  · unfold analyse_new
    simp [hn, hno]
  · unfold analyze_cached
    simp [hn, hno]
  · unfold analyze_cached
    simp [hn, hno]
  · unfold analyse_new
    simp [hn, hno]
  · unfold analyse_new
    simp [hn, hno]

/-- Witness: the amended allow-list behaviour at `x.fa`, accepted by both
variants. -/
theorem spec_extension_allowlist_amended_witness :
    ((analyze_cached [] envC5 "x.fa" sampleUpload).response =
        .httpError 400 (unsupportedDetail allowed_extensions_cached) ↔
      fileExtOf "x.fa" ∉ allowed_extensions_cached) ∧
    ((analyse_new [] envN5 "x.fa" sampleUpload).response =
        .httpError 400 (unsupportedDetail allowed_extensions_new) ↔
      fileExtOf "x.fa" ∉ allowed_extensions_new) ∧
    (fileExtOf "x.fa" ∉ allowed_extensions_cached →
      analyze_cached [] envC5 "x.fa" sampleUpload =
        ⟨.httpError 400 (unsupportedDetail allowed_extensions_cached), [], false⟩ ∧
      analyze_cached [] envC5 "x.fa" sampleUpload =
        analyze_cached [] envC5 "x.fa" [0]) ∧
    (fileExtOf "x.fa" ∉ allowed_extensions_new →
      analyse_new [] envN5 "x.fa" sampleUpload =
        ⟨.httpError 400 (unsupportedDetail allowed_extensions_new), [], false⟩ ∧
      analyse_new [] envN5 "x.fa" sampleUpload = analyse_new [] envN5 "x.fa" [0]) :=
  spec_extension_allowlist_amended "x.fa" sampleUpload [0] [] envC5 envN5 rfl

/-- C5 counterexample: the claim's allow-list is the union of the two
variants' lists, but `main_cached.py` rejects `.fna` and `main_new.py`
rejects `.txt` — each with the unsupported-type 400, leaving the store
untouched and the compute client uninvoked. -/
theorem spec_extension_counterexample :
    fileExtOf "x.fna" = ".fna" ∧
    analyze_cached [] envC5 "x.fna" sampleUpload =
      ⟨.httpError 400 (unsupportedDetail allowed_extensions_cached), [], false⟩ ∧
    fileExtOf "y.txt" = ".txt" ∧
    analyse_new [] envN5 "y.txt" sampleUpload =
      ⟨.httpError 400 (unsupportedDetail allowed_extensions_new), [], false⟩ :=
  ⟨rfl, rfl, rfl, rfl⟩

/-- C2 (amended): when the cache lookup misses but a concurrent request
has inserted a row for the same fingerprint before this request's
`create_job`, the creation fails with the conflict and the failure is
swallowed (`main_cached.py` lines 164-166): the request does not re-read
the store, continues without a job record (`job_id` absent from its
response), and invokes the compute call anyway — so the compute call can
run twice for the same fingerprint. -/
theorem spec_conflict_swallowed_amended (jobs : List Job) (env : CachedEnv)
    (filename : String) (b : List Nat)
    (hn : (filename == "") = false)
    (hext : fileExtOf filename ∈ allowed_extensions_cached)
    (hdb : env.dbEnabled = true)
    (hmiss : get_job_by_hash jobs (compute_file_hash b) = none)
    (hconf : (env.interfere jobs).any
        (fun j => j.file_hash == compute_file_hash b) = true) :
    analyze_cached jobs env filename b =
      ⟨(match env.computeResult with
        | .ok d =>
            Response.success false none (some (addTimeMeta d env.procTime env.parsedMetadata))
        | .error m => Response.errorEnvelope ("Analysis failed: " ++ m)),
       env.interfere jobs, true⟩ := by
  unfold analyze_cached analyze_cached_miss create_job
  simp [hn, hext, hdb, hmiss, hconf]
  cases env.computeResult <;> simp

/-- Witness: the conflict scenario at a concrete store and upload. -/
theorem spec_conflict_swallowed_amended_witness :
    analyze_cached [] envC2 "x.fasta" sampleUpload =
      ⟨.success false none (some testDoc), [jobA], true⟩ :=
  spec_conflict_swallowed_amended [] envC2 "x.fasta" sampleUpload rfl (by decide)
    rfl rfl (by decide)

/-- C2 counterexample: a concurrent insert for the same fingerprint makes
`create_job` fail with the conflict, yet the request still invokes the
compute call and returns a fresh uncached result instead of following the
found-job branches. -/
theorem spec_conflict_counterexample :
    create_job [jobA] (compute_file_hash sampleUpload) "x.fasta" .processing none
      "t1" "jobB" = .error .conflict ∧
    (analyze_cached [] envC2 "x.fasta" sampleUpload).computeInvoked = true ∧
    (analyze_cached [] envC2 "x.fasta" sampleUpload).response =
      .success false none (some testDoc) :=
  ⟨rfl, rfl, rfl⟩

/-- C6 (amended): when the compute call fails, the Supabase-backed variant
marks the created Job failed (stamping `completed_at`) and reports the
compute error to the caller as the `status:"error"` envelope `Analysis
failed: <err>` — an HTTP 200 dict, not a 5xx — and a storage error raised
by the failure bookkeeping itself is swallowed and never masks the compute
error (the response is the same whether or not the bookkeeping write
lands); the SQL-backed variant propagates the compute error as an HTTP 500
with the error text (it has created no Job record to mark failed, and
persists nothing). -/
theorem spec_failure_bookkeeping_amended (jobs : List Job) (env : CachedEnv)
    (envN : NewEnv) (filename : String) (b : List Nat) (msg : String)
    (hn : (filename == "") = false)
    (hextC : fileExtOf filename ∈ allowed_extensions_cached)
    (hextN : fileExtOf filename ∈ allowed_extensions_new)
    (hdb : env.dbEnabled = true)
    (hcomp : env.computeResult = .error msg)
    (hmiss : get_job_by_hash jobs (compute_file_hash b) = none)
    (hnoconf : (env.interfere jobs).any
        (fun j => j.file_hash == compute_file_hash b) = false)
    (hcompN : envN.computeResult = .error msg)
    (hchk : check_existing_result envN.dbUp jobs (compute_file_hash b) = none) :
    (env.failSaveOk = true →
      analyze_cached jobs env filename b =
        ⟨.errorEnvelope ("Analysis failed: " ++ msg),
         failUpdate (env.interfere jobs ++
             [⟨env.newJobId, compute_file_hash b, filename, .processing, none, none⟩])
           env.newJobId env.nowIso,
         true⟩) ∧
    (∀ sv : Bool, (analyze_cached jobs { env with failSaveOk := sv } filename b).response =
      .errorEnvelope ("Analysis failed: " ++ msg)) ∧
    (analyze_cached jobs env filename b).response.httpStatus = 200 ∧
    (env.failSaveOk = true →
      ∃ j ∈ (analyze_cached jobs env filename b).jobs,
        j.job_id = env.newJobId ∧ j.status = .failed ∧ j.completed_at = some env.nowIso) ∧
    analyse_new jobs envN filename b = ⟨.httpError 500 msg, jobs, true⟩ := by
  have keyT : env.failSaveOk = true →
      analyze_cached jobs env filename b =
        ⟨.errorEnvelope ("Analysis failed: " ++ msg),
         failUpdate (env.interfere jobs ++
             [⟨env.newJobId, compute_file_hash b, filename, .processing, none, none⟩])
           env.newJobId env.nowIso,
         true⟩ := by
    intro hsv
    unfold analyze_cached analyze_cached_miss create_job
    simp [hn, hextC, hdb, hmiss, hnoconf, hcomp, hsv, optTruthy]
  have keyResp : ∀ sv : Bool,
      (analyze_cached jobs { env with failSaveOk := sv } filename b).response =
        .errorEnvelope ("Analysis failed: " ++ msg) := by
    intro sv
    unfold analyze_cached analyze_cached_miss create_job
    simp [hn, hextC, hdb, hmiss, hnoconf, hcomp]
  refine ⟨keyT, keyResp, ?_, fun hsv => ?_, ?_⟩
  · have hr : (analyze_cached jobs env filename b).response =
        .errorEnvelope ("Analysis failed: " ++ msg) := keyResp env.failSaveOk
    rw [hr]
    rfl
  · rw [keyT hsv]
    refine ⟨⟨env.newJobId, compute_file_hash b, filename, .failed, none, some env.nowIso⟩,
      ?_, rfl, rfl, rfl⟩
    simp only [failUpdate, updateJobs, List.map_append, List.mem_append]
    right
    simp
  · unfold analyse_new
    simp [hn, hextN, hchk, hcompN]

/-- Witness: the failure scenario at a concrete store and upload. -/
theorem spec_failure_bookkeeping_amended_witness :
    (envC6.failSaveOk = true →
      analyze_cached [] envC6 "x.fasta" sampleUpload =
        ⟨.errorEnvelope ("Analysis failed: " ++ "boom"),
         failUpdate (envC6.interfere [] ++
             [⟨envC6.newJobId, compute_file_hash sampleUpload, "x.fasta", .processing,
               none, none⟩])
           envC6.newJobId envC6.nowIso,
         true⟩) ∧
    (∀ sv : Bool,
      (analyze_cached [] { envC6 with failSaveOk := sv } "x.fasta" sampleUpload).response =
        .errorEnvelope ("Analysis failed: " ++ "boom")) ∧
    (analyze_cached [] envC6 "x.fasta" sampleUpload).response.httpStatus = 200 ∧
    (envC6.failSaveOk = true →
      ∃ j ∈ (analyze_cached [] envC6 "x.fasta" sampleUpload).jobs,
        j.job_id = envC6.newJobId ∧ j.status = .failed ∧
          j.completed_at = some envC6.nowIso) ∧
    analyse_new [] envN6 "x.fasta" sampleUpload = ⟨.httpError 500 "boom", [], true⟩ :=
  spec_failure_bookkeeping_amended [] envC6 envN6 "x.fasta" sampleUpload "boom"
    rfl (by decide) (by decide) rfl rfl rfl rfl rfl rfl

/-- C6 counterexample: a failed compute call on the Supabase-backed variant
does mark the job failed with a stamped completion time, but the caller
receives the `status:"error"` envelope with HTTP status 200, not a 5xx
response as claimed. -/
theorem spec_failure_no_5xx_counterexample :
    (analyze_cached [] envC6 "x.fasta" sampleUpload).response =
      .errorEnvelope "Analysis failed: boom" ∧
    (analyze_cached [] envC6 "x.fasta" sampleUpload).response.httpStatus = 200 ∧
    (analyze_cached [] envC6 "x.fasta" sampleUpload).jobs =
      [⟨"jobF", compute_file_hash sampleUpload, "x.fasta", .failed, none, some "t9"⟩] :=
  ⟨rfl, rfl, rfl⟩

/-- A cache miss is exactly the absence of a row with this hash. -/
theorem get_job_by_hash_eq_none_iff (jobs : List Job) (fh : String) :
    get_job_by_hash jobs fh = none ↔ ∀ j ∈ jobs, (j.file_hash == fh) = false := by
  unfold get_job_by_hash
  rw [List.find?_eq_none]
  simp

/-- A predicate false on every element makes `any` false. -/
theorem any_eq_false_of_each {α : Type} (p : α → Bool) (l : List α)
    (h : ∀ x ∈ l, p x = false) : l.any p = false := by
  rw [List.any_eq_false]
  intro x hx
  simp [h x hx]

/-- After the first request appended its processing row (for a hash absent
from the rest of the store) and completed it, a lookup for that hash finds
the completed row. -/
theorem get_job_by_hash_after_complete (jobs : List Job) (fh nid fn : String)
    (r : Json) (t : String)
    (hmiss : ∀ j ∈ jobs, (j.file_hash == fh) = false) :
    get_job_by_hash
        (completeUpdate (jobs ++ [⟨nid, fh, fn, .processing, none, none⟩]) nid r t) fh =
      some ⟨nid, fh, fn, .complete, some r, some t⟩ := by
  unfold get_job_by_hash completeUpdate updateJobs
  rw [List.map_append, List.find?_append]
  have h1 : (jobs.map fun j =>
      if j.job_id == nid then
        { j with status := JobStatus.complete, result := some r, completed_at := some t }
      else j).find? (fun j => j.file_hash == fh) = none := by
    rw [List.find?_eq_none]
    intro x hx
    simp only [List.mem_map] at hx
    obtain ⟨j, hj, rfl⟩ := hx
    have hf := hmiss j hj
    by_cases hc : (j.job_id == nid) = true
    · simp [hc, hf]
    · simp only [Bool.not_eq_true] at hc
      simp [hc, hf]
  rw [h1]
  simp

/-- After the SQL variant inserted its completed row for a hash absent from
the rest of the store, the completed-row lookup finds it. -/
theorem check_existing_after_save (jobs : List Job) (fh nid fn : String) (d : Json)
    (hmiss : ∀ j ∈ jobs, (j.file_hash == fh) = false) :
    check_existing_result true (jobs ++ [⟨nid, fh, fn, .complete, some d, none⟩]) fh =
      some (nid, some d) := by
  unfold check_existing_result
  rw [List.find?_append]
  have h1 : jobs.find?
      (fun j => j.file_hash == fh && j.status == JobStatus.complete) = none := by
    rw [List.find?_eq_none]
    intro x hx
    simp [hmiss x hx]
  rw [h1]
  simp

/-- C1: a submission whose fingerprint maps to a completed Job returns
`cached: true` with the stored `job_id` and stored result immediately, with
the store unchanged and the compute client not invoked — in both variants —
and submitting the same file content twice sequentially returns
`cached: true` the second time with the same `job_id` and result as the
first (first call uncached, second call a pure cache hit), again in both
variants. -/
theorem spec_cache_hit_idempotent :
    (∀ (jobs : List Job) (env : CachedEnv) (filename : String) (b : List Nat) (j : Job),
      (filename == "") = false →
      fileExtOf filename ∈ allowed_extensions_cached →
      env.dbEnabled = true →
      get_job_by_hash jobs (compute_file_hash b) = some j →
      j.status = .complete →
      analyze_cached jobs env filename b =
        ⟨.success true (some j.job_id) j.result, jobs, false⟩) ∧
    (∀ (jobs : List Job) (env : NewEnv) (filename : String) (b : List Nat)
        (jid : String) (res : Option Json),
      (filename == "") = false →
      fileExtOf filename ∈ allowed_extensions_new →
      check_existing_result env.dbUp jobs (compute_file_hash b) = some (jid, res) →
      analyse_new jobs env filename b = ⟨.success true (some jid) res, jobs, false⟩) ∧
    (∀ (jobs : List Job) (env1 env2 : CachedEnv) (filename : String) (b : List Nat)
        (d : Json),
      (filename == "") = false →
      fileExtOf filename ∈ allowed_extensions_cached →
      env1.dbEnabled = true → env2.dbEnabled = true →
      env1.interfere = id → env1.completeSaveOk = true →
      env1.computeResult = .ok d →
      get_job_by_hash jobs (compute_file_hash b) = none →
      analyze_cached jobs env1 filename b =
        ⟨.success false (some env1.newJobId)
            (some (addTimeMeta d env1.procTime env1.parsedMetadata)),
         completeUpdate
           (jobs ++ [⟨env1.newJobId, compute_file_hash b, filename, .processing, none, none⟩])
           env1.newJobId (addTimeMeta d env1.procTime env1.parsedMetadata) env1.nowIso,
         true⟩ ∧
      analyze_cached (analyze_cached jobs env1 filename b).jobs env2 filename b =
        ⟨.success true (some env1.newJobId)
            (some (addTimeMeta d env1.procTime env1.parsedMetadata)),
         (analyze_cached jobs env1 filename b).jobs, false⟩) ∧
    (∀ (jobs : List Job) (env1 env2 : NewEnv) (filename : String) (b : List Nat) (d : Json),
      (filename == "") = false →
      fileExtOf filename ∈ allowed_extensions_new →
      env1.computeResult = .ok d → env1.saveOk = true → env2.dbUp = true →
      (∀ j ∈ jobs, (j.file_hash == compute_file_hash b) = false) →
      analyse_new jobs env1 filename b =
        ⟨.success false (some env1.newJobId) (some d),
         jobs ++ [⟨env1.newJobId, compute_file_hash b, filename, .complete, some d, none⟩],
         true⟩ ∧
      analyse_new (analyse_new jobs env1 filename b).jobs env2 filename b =
        ⟨.success true (some env1.newJobId) (some d),
         (analyse_new jobs env1 filename b).jobs, false⟩) := by
  have hitC : ∀ (jobs : List Job) (env : CachedEnv) (filename : String) (b : List Nat)
      (j : Job),
      (filename == "") = false →
      fileExtOf filename ∈ allowed_extensions_cached →
      env.dbEnabled = true →
      get_job_by_hash jobs (compute_file_hash b) = some j →
      j.status = .complete →
      analyze_cached jobs env filename b =
        ⟨.success true (some j.job_id) j.result, jobs, false⟩ := by
    intro jobs env filename b j hn hext hdb hfind hst
    unfold analyze_cached
    simp [hn, hext, hdb, hfind, hst]
  have hitN : ∀ (jobs : List Job) (env : NewEnv) (filename : String) (b : List Nat)
      (jid : String) (res : Option Json),
      (filename == "") = false →
      fileExtOf filename ∈ allowed_extensions_new →
      check_existing_result env.dbUp jobs (compute_file_hash b) = some (jid, res) →
      analyse_new jobs env filename b = ⟨.success true (some jid) res, jobs, false⟩ := by
    intro jobs env filename b jid res hn hext hchk
    unfold analyse_new
    simp [hn, hext, hchk]
  refine ⟨hitC, hitN, ?_, ?_⟩
  · intro jobs env1 env2 filename b d hn hext hdb1 hdb2 hI hsave hcomp hmiss
    have hmissAll := (get_job_by_hash_eq_none_iff jobs (compute_file_hash b)).mp hmiss
    have hany : (jobs.any fun j => j.file_hash == compute_file_hash b) = false :=
      any_eq_false_of_each _ jobs hmissAll
    have hfirst : analyze_cached jobs env1 filename b =
        ⟨.success false (some env1.newJobId)
            (some (addTimeMeta d env1.procTime env1.parsedMetadata)),
         completeUpdate
           (jobs ++ [⟨env1.newJobId, compute_file_hash b, filename, .processing, none, none⟩])
           env1.newJobId (addTimeMeta d env1.procTime env1.parsedMetadata) env1.nowIso,
         true⟩ := by
      unfold analyze_cached analyze_cached_miss create_job
      simp [hn, hext, hdb1, hI, hany, hcomp, hsave, hmiss, optTruthy]
    refine ⟨hfirst, ?_⟩
    rw [hfirst]
    exact hitC _ env2 filename b _ hn hext hdb2
      (get_job_by_hash_after_complete jobs (compute_file_hash b) env1.newJobId filename
        (addTimeMeta d env1.procTime env1.parsedMetadata) env1.nowIso hmissAll) rfl
  · intro jobs env1 env2 filename b d hn hext hcomp hsave hdb2 hmiss
    have hany : (jobs.any fun j => j.file_hash == compute_file_hash b) = false :=
      any_eq_false_of_each _ jobs hmiss
    have hchk : check_existing_result env1.dbUp jobs (compute_file_hash b) = none := by
      unfold check_existing_result
      have h1 : jobs.find?
          (fun j => j.file_hash == compute_file_hash b && j.status == JobStatus.complete) =
            none := by
        rw [List.find?_eq_none]
        intro x hx
        simp [hmiss x hx]
      simp [h1]
    have hfirst : analyse_new jobs env1 filename b =
        ⟨.success false (some env1.newJobId) (some d),
         jobs ++ [⟨env1.newJobId, compute_file_hash b, filename, .complete, some d, none⟩],
         true⟩ := by
      unfold analyse_new save_result_to_db
      simp [hn, hext, hchk, hcomp, hsave, hany]
    refine ⟨hfirst, ?_⟩
    rw [hfirst]
    have hchk2 : check_existing_result env2.dbUp
        (jobs ++ [⟨env1.newJobId, compute_file_hash b, filename, .complete, some d, none⟩])
        (compute_file_hash b) = some (env1.newJobId, some d) := by
      rw [hdb2]
      exact check_existing_after_save jobs (compute_file_hash b) env1.newJobId filename d hmiss
    exact hitN _ env2 filename b _ _ hn hext hchk2

/-- Witness: the sequential submit-twice scenario of the sample upload on
the Supabase-backed variant — first call uncached and persisted, second
call a cache hit with the same `job_id` and result and no compute call. -/
theorem spec_cache_hit_idempotent_witness :
    analyze_cached [] envC1 "x.fasta" sampleUpload =
      ⟨.success false (some "jobN") (some testDoc),
       completeUpdate
         ([] ++ [⟨"jobN", compute_file_hash sampleUpload, "x.fasta", .processing, none, none⟩])
         "jobN" testDoc "t1",
       true⟩ ∧
    analyze_cached (analyze_cached [] envC1 "x.fasta" sampleUpload).jobs envC1
        "x.fasta" sampleUpload =
      ⟨.success true (some "jobN") (some testDoc),
       (analyze_cached [] envC1 "x.fasta" sampleUpload).jobs, false⟩ :=
  spec_cache_hit_idempotent.2.2.1 [] envC1 envC1 "x.fasta" sampleUpload testDoc
    rfl (by decide) rfl rfl rfl rfl rfl rfl

/-- One guarded operation preserves the completed-rows-carry-results
invariant. -/
theorem completeHasResult_step (jobs : List Job) (op : StoreOp)
    (hg : opGuard jobs op) (hinv : CompleteHasResult jobs) :
    CompleteHasResult (applyOp jobs op) := by
  cases op with
  | create h f st r now id =>
      unfold applyOp create_job
      by_cases hc : (jobs.any fun j => j.file_hash == h) = true
      · simp only [hc, if_true]
        exact hinv
      · rw [Bool.not_eq_true] at hc
        simp only [hc, Bool.false_eq_true, if_false]
        intro j hj hst
        rw [List.mem_append] at hj
        cases hj with
        | inl hj => exact hinv j hj hst
        | inr hj =>
            rw [List.mem_singleton] at hj
            subst hj
            simp only at hst
            cases hg with
            | inl htr =>
                cases r with
                | none => simp [optTruthy] at htr
                | some v => simp [htr]
            | inr hpr =>
                rw [hpr.1] at hst
                exact absurd hst (by simp)
  | complete id r t =>
      unfold applyOp completeUpdate updateJobs
      intro j hj hst
      rw [List.mem_map] at hj
      obtain ⟨x, hx, rfl⟩ := hj
      by_cases hc : (x.job_id == id) = true
      · simp [hc]
      · rw [Bool.not_eq_true] at hc
        simp only [hc, Bool.false_eq_true, if_false] at hst ⊢
        exact hinv x hx hst
  | fail id t =>
      unfold applyOp failUpdate updateJobs
      intro j hj hst
      rw [List.mem_map] at hj
      obtain ⟨x, hx, rfl⟩ := hj
      by_cases hc : (x.job_id == id) = true
      · simp only [hc, if_true] at hst
        exact absurd hst (by simp)
      · rw [Bool.not_eq_true] at hc
        simp only [hc, Bool.false_eq_true, if_false] at hst ⊢
        exact hinv x hx hst
  | save id h f r =>
      unfold applyOp save_result_to_db
      by_cases hc : (jobs.any fun j => j.file_hash == h) = true
      · simp only [hc, if_true]
        intro j hj hst
        rw [List.mem_map] at hj
        obtain ⟨x, hx, rfl⟩ := hj
        by_cases hm : (x.file_hash == h) = true
        · simp [hm]
        · rw [Bool.not_eq_true] at hm
          simp only [hm, Bool.false_eq_true, if_false] at hst ⊢
          exact hinv x hx hst
      · rw [Bool.not_eq_true] at hc
        simp only [hc, Bool.false_eq_true, if_false]
        intro j hj hst
        rw [List.mem_append] at hj
        cases hj with
        | inl hj => exact hinv j hj hst
        | inr hj =>
            rw [List.mem_singleton] at hj
            subst hj
            simp

/-- C4 (amended): in every store state reachable by the operations as the
code invokes them (create with `status=processing` and no result, or with a
full truthy result document; complete / fail targeting the fresh processing
row the same request created; the save upsert), every completed Job carries
a result, and no operation moves a Job out of `complete`: each completed
row survives every operation with its `job_id` and completed status — and,
for every operation except the SQL variant's save upsert, with its stored
result unchanged.  (The upsert keeps the row completed but may overwrite
its stored result; see the counterexample.) -/
theorem spec_job_invariants_amended :
    (∀ jobs, ReachableStore jobs → CompleteHasResult jobs) ∧
    (∀ jobs op, opGuard jobs op → ∀ j ∈ jobs, j.status = .complete →
      ∃ j' ∈ applyOp jobs op, j'.job_id = j.job_id ∧ j'.status = .complete) ∧
    (∀ jobs op, opGuard jobs op → isSaveOp op = false → ∀ j ∈ jobs,
      j.status = .complete →
      ∃ j' ∈ applyOp jobs op, j'.job_id = j.job_id ∧ j'.status = .complete ∧
        j'.result = j.result) := by
  refine ⟨?_, ?_, ?_⟩
  · intro jobs hr
    induction hr with
    | empty => intro j hj _; exact absurd hj (List.not_mem_nil j)
    | step jobs op hr hg ih => exact completeHasResult_step jobs op hg ih
  · intro jobs op hg j hj hst
    cases op with
    | create h f st r now id =>
        unfold applyOp create_job
        by_cases hc : (jobs.any fun j => j.file_hash == h) = true
        · simp only [hc, if_true]
          exact ⟨j, hj, rfl, hst⟩
        · rw [Bool.not_eq_true] at hc
          simp only [hc, Bool.false_eq_true, if_false]
          exact ⟨j, List.mem_append_left _ hj, rfl, hst⟩
    | complete id r t =>
        have hne : (j.job_id == id) = false := by
          rw [beq_eq_false_iff_ne]
          intro he
          have := hg j hj he
          rw [hst] at this
          exact absurd this (by simp)
        refine ⟨j, ?_, rfl, hst⟩
        unfold applyOp completeUpdate updateJobs
        have : (if j.job_id == id then
            { j with status := JobStatus.complete, result := some r, completed_at := some t }
            else j) = j := by simp [hne]
        rw [← this]
        exact List.mem_map_of_mem _ hj
    | fail id t =>
        have hne : (j.job_id == id) = false := by
          rw [beq_eq_false_iff_ne]
          intro he
          have := hg j hj he
          rw [hst] at this
          exact absurd this (by simp)
        refine ⟨j, ?_, rfl, hst⟩
        unfold applyOp failUpdate updateJobs
        have : (if j.job_id == id then
            { j with status := JobStatus.failed, completed_at := some t } else j) = j := by
          simp [hne]
        rw [← this]
        exact List.mem_map_of_mem _ hj
    | save id h f r =>
        unfold applyOp save_result_to_db
        by_cases hc : (jobs.any fun j => j.file_hash == h) = true
        · simp only [hc, if_true]
          by_cases hm : (j.file_hash == h) = true
          · refine ⟨{ j with status := JobStatus.complete, result := some r }, ?_, rfl, rfl⟩
            have : (if j.file_hash == h then
                { j with status := JobStatus.complete, result := some r } else j) =
                { j with status := JobStatus.complete, result := some r } := by simp [hm]
            rw [← this]
            exact List.mem_map_of_mem _ hj
          · rw [Bool.not_eq_true] at hm
            refine ⟨j, ?_, rfl, hst⟩
            have : (if j.file_hash == h then
                { j with status := JobStatus.complete, result := some r } else j) = j := by
              simp [hm]
            rw [← this]
            exact List.mem_map_of_mem _ hj
        · rw [Bool.not_eq_true] at hc
          simp only [hc, Bool.false_eq_true, if_false]
          exact ⟨j, List.mem_append_left _ hj, rfl, hst⟩
  · intro jobs op hg hns j hj hst
    cases op with
    | create h f st r now id =>
        unfold applyOp create_job
        by_cases hc : (jobs.any fun j => j.file_hash == h) = true
        · simp only [hc, if_true]
          exact ⟨j, hj, rfl, hst, rfl⟩
        · rw [Bool.not_eq_true] at hc
          simp only [hc, Bool.false_eq_true, if_false]
          exact ⟨j, List.mem_append_left _ hj, rfl, hst, rfl⟩
    | complete id r t =>
        have hne : (j.job_id == id) = false := by
          rw [beq_eq_false_iff_ne]
          intro he
          have := hg j hj he
          rw [hst] at this
          exact absurd this (by simp)
        refine ⟨j, ?_, rfl, hst, rfl⟩
        unfold applyOp completeUpdate updateJobs
        have : (if j.job_id == id then
            { j with status := JobStatus.complete, result := some r, completed_at := some t }
            else j) = j := by simp [hne]
        rw [← this]
        exact List.mem_map_of_mem _ hj
    | fail id t =>
        have hne : (j.job_id == id) = false := by
          rw [beq_eq_false_iff_ne]
          intro he
          have := hg j hj he
          rw [hst] at this
          exact absurd this (by simp)
        refine ⟨j, ?_, rfl, hst, rfl⟩
        unfold applyOp failUpdate updateJobs
        have : (if j.job_id == id then
            { j with status := JobStatus.failed, completed_at := some t } else j) = j := by
          simp [hne]
        rw [← this]
        exact List.mem_map_of_mem _ hj
    | save id h f r => exact absurd hns (by simp [isSaveOp])

/-- Witness: a completed row of a concrete reachable store survives a
second save upsert with its id and completed status. -/
theorem spec_job_invariants_amended_witness :
    ∃ j' ∈ applyOp savedJob1 saveOp2, j'.job_id = "j1" ∧ j'.status = JobStatus.complete :=
  spec_job_invariants_amended.2.1 savedJob1 saveOp2 trivial
    ⟨"j1", "h1", "x.fasta", .complete, some (.jstr "r1"), none⟩
    (List.mem_singleton.mpr rfl) rfl

/-- C4 counterexample: the save upsert, run a second time for the same
fingerprint, replaces the stored result of a completed Job of a reachable
store (`r1` becomes `r2` while the row keeps its `job_id` and completed
status), contradicting the claim that no operation replaces a completed
Job's stored result. -/
theorem spec_result_replaced_counterexample :
    ReachableStore savedJob1 ∧
    savedJob1 = [⟨"j1", "h1", "x.fasta", .complete, some (.jstr "r1"), none⟩] ∧
    applyOp savedJob1 saveOp2 =
      [⟨"j1", "h1", "x.fasta", .complete, some (.jstr "r2"), none⟩] ∧
    Json.jstr "r1" ≠ Json.jstr "r2" := by
  refine ⟨ReachableStore.step [] (.save "j1" "h1" "x.fasta" (.jstr "r1"))
    ReachableStore.empty trivial, rfl, rfl, ?_⟩
  intro h
  injection h with h2
  exact absurd h2 (by decide)
